import Mathlib

/-
Verification of the per-job plate-solving pipeline of panoptes-network
(src/gce-plate-solver/plate-solver.py) against its natural-language
specification.  The Python functions `solve_file` and `msg_callback`
are shallowly embedded as pure Lean functions over an explicit
environment of external-call outcomes and an explicit local scratch
filesystem.  Python name binding is modelled with `Option String`
locals, so that a reference to a never-assigned local in the cleanup
block surfaces as the `UnboundLocalError` CPython raises there.
-/

deriving instance DecidableEq for Except

namespace PlateSolver

/-- One terminal job result: the dict literal with keys status and filename. -/
structure JobResult where
  status : String
  filename : String
deriving DecidableEq, Repr

/-- The Python exceptions the embedding distinguishes. -/
inductive PyExc where
  | valueError
  | downloadError
  | unpackMissing
  | headerError
  | lookupError
  | stampsError
  | csvWriteError
  | uploadError
  | packError
  | unboundLocal (name : String)
deriving DecidableEq, Repr

/-- Record of the external calls a run makes (object-store downloads and
uploads, solver invocations, catalog lookups), by destination key or path. -/
structure Trace where
  downloads : List String
  solverCalls : List String
  lookupCalls : List String
  stampUploads : List String
  sourceUploads : List String
  imageUploads : List String
deriving DecidableEq, Repr

def Trace.empty : Trace := ⟨[], [], [], [], [], []⟩

/-- The image header fields the pipeline touches: EXPTIME and AIRMASS are
read by the code; dateObs is the observation start time the header also
carries, which the code never consults when computing the observation time. -/
structure Header where
  exptime : Int
  airmass : Int
  dateObs : Int
deriving DecidableEq, Repr

/-- Outcomes of every external call `solve_file` can make, fixed up front:
this is the oracle for one run. `parseTime` models the datetime parse of the
timestamp string taken from the file segment of the objectKey. -/
structure Env where
  downloadOk : Bool
  wcsLen : Nat
  unpackCreatesFile : Bool
  solveRaises : Bool
  solveInfoIsSome : Bool
  headerOk : Bool
  header : Header
  parseTime : String → Int
  lookupOk : Bool
  getStampsOk : Bool
  stampsToCsvOk : Bool
  stampsUploadOk : Bool
  sourcesToCsvOk : Bool
  sourcesUploadOk : Bool
  packOk : Bool
  finalUploadOk : Bool

/-- Splitting accumulator for `splitOnChar`. -/
def splitOnCharAux (c : Char) : List Char → List Char → List (List Char)
  | [], acc => [acc.reverse]
  | x :: xs, acc =>
      if x = c then acc.reverse :: splitOnCharAux c xs []
      else splitOnCharAux c xs (x :: acc)

/-- Python str.split(sep) for a one-character separator (no maxsplit). -/
def splitOnChar (c : Char) (s : String) : List String :=
  (splitOnCharAux c s.data []).map (fun l => String.mk l)

/-- Python str.replace of every slash by an underscore, used for the local
scratch names under /tmp. -/
def underscored (s : String) : String :=
  String.mk (s.data.map (fun c => if c = '/' then '_' else c))

def startsWithL : List Char → List Char → Bool
  | [], _ => true
  | _ :: _, [] => false
  | p :: ps, c :: cs => p = c && startsWithL ps cs

def hasSubL (pat : List Char) : List Char → Bool
  | [] => startsWithL pat []
  | c :: rest => startsWithL pat (c :: rest) || hasSubL pat rest

/-- Python substring test: pat in s. -/
def hasSub (s pat : String) : Bool := hasSubL pat.data s.data

def endsWithL (suf s : List Char) : Bool := startsWithL suf.reverse s.reverse

/-- Local path of the downloaded archive: download_blob with destination
/tmp places the blob at /tmp/ joined with the slash-flattened key. -/
def tmpFzName (object_id : String) : String := "/tmp/" ++ underscored object_id

/-- Name of the decompressed image produced by the funpack step: the
archive name with its .fz extension removed. -/
def unpackedName (s : String) : String :=
  if endsWithL ".fz".data s.data then String.mk (s.data.take (s.data.length - 3)) else s

/-- The five path segments of an objectKey. -/
structure ParsedKey where
  unit_id : String
  field : String
  cam_id : String
  seq_time : String
  file : String
deriving DecidableEq, Repr

def ParsedKey.image_time (p : ParsedKey) : String := (splitOnChar '.' p.file).headD ""

def ParsedKey.sequence_id (p : ParsedKey) : String :=
  p.unit_id ++ "_" ++ p.cam_id ++ "_" ++ p.seq_time

def ParsedKey.image_id (p : ParsedKey) : String :=
  p.unit_id ++ "_" ++ p.cam_id ++ "_" ++ p.image_time

/-- Lines 81-84 of plate-solver.py: tuple unpacking of object_id.split('/');
`none` models the ValueError raised when the key has other than 5 segments. -/
def parseObjectKey (object_id : String) : Option ParsedKey :=
  match splitOnChar '/' object_id with
  | [u, f, c, s, fl] => some ⟨u, f, c, s, fl⟩
  | _ => none

/-- How the try-body of `solve_file` terminates: the early return of the
unsolved path, normal fall-through to sources_extracted, or an exception
caught by the outer except. -/
inductive BodyExit where
  | ret (r : JobResult)
  | fell
  | exc (e : PyExc)
deriving DecidableEq, Repr

/-- State at the end of the try-body: how it exited, which of the three
locals named by the cleanup block are bound, the scratch filesystem, the
external-call trace, and the mid-exposure observation time if computed. -/
structure BodySt where
  exit : BodyExit
  fz_fn : Option String
  fits_fn : Option String
  local_csv : Option String
  fs : List String
  trace : Trace
  obstimeUsed : Option ℚ
deriving DecidableEq, Repr

/-- Create a file: the filesystem is a duplicate-free list of paths. -/
def addFile (fs : List String) (fn : String) : List String :=
  if fn ∈ fs then fs else fs ++ [fn]

/-- An output artifact key of the form unit/field/cam/seq/stem-time.csv,
the os.path.join of lines 143 and 149. -/
def artifactKey (p : ParsedKey) (stem : String) : String :=
  p.unit_id ++ "/" ++ p.field ++ "/" ++ p.cam_id ++ "/" ++ p.seq_time ++ "/" ++
    (stem ++ p.image_time ++ ".csv")

/-- Lines 158-163: the conditional re-upload of the re-compressed solved
image to the original objectKey, then status sources_extracted. -/
def uploadStage (object_id : String) (env : Env) (fz1 fits1 csv1 : String)
    (fs4 : List String) (tr4 : Trace) (obstime : ℚ) : BodySt :=
  if env.solveInfoIsSome && (env.wcsLen == 1) then
    if env.packOk then
      let fz2 := fits1 ++ ".fz"
      let fs5 := addFile fs4 fz2
      let tr5 := { tr4 with imageUploads := [object_id] }
      if env.finalUploadOk then
        { exit := .fell, fz_fn := some fz2, fits_fn := some fits1, local_csv := some csv1,
          fs := fs5, trace := tr5, obstimeUsed := some obstime }
      else
        { exit := .exc .uploadError, fz_fn := some fz2, fits_fn := some fits1,
          local_csv := some csv1, fs := fs5, trace := tr5, obstimeUsed := some obstime }
    else
      { exit := .exc .packError, fz_fn := some fz1, fits_fn := some fits1,
        local_csv := some csv1, fs := fs4, trace := tr4, obstimeUsed := some obstime }
  else
    { exit := .fell, fz_fn := some fz1, fits_fn := some fits1, local_csv := some csv1,
      fs := fs4, trace := tr4, obstimeUsed := some obstime }

/-- Lines 148-156: bind local_csv, then the inner try that serializes and
uploads the source CSV and swallows any failure. -/
def csvStage (object_id : String) (env : Env) (p : ParsedKey) (fz1 fits1 : String)
    (fs3 : List String) (tr3 : Trace) (obstime : ℚ) : BodySt :=
  let sources_key := artifactKey p "sources-"
  let csv1 := "/tmp/" ++ underscored sources_key
  let fs4 := if env.sourcesToCsvOk then addFile fs3 csv1 else fs3
  let tr4 := if env.sourcesToCsvOk then { tr3 with sourceUploads := [sources_key] } else tr3
  uploadStage object_id env fz1 fits1 csv1 fs4 tr4 obstime

/-- Lines 140-146: stamp extraction, local stamps CSV, stamps upload.
A failure here propagates to the outer except. -/
def stampsStage (object_id : String) (env : Env) (p : ParsedKey) (fz1 fits1 : String)
    (fs2 : List String) (tr2 : Trace) (obstime : ℚ) : BodySt :=
  if env.getStampsOk then
    let stamps_key := artifactKey p "stamps-"
    let local_stamps := "/tmp/" ++ underscored stamps_key
    if env.stampsToCsvOk then
      let fs3 := addFile fs2 local_stamps
      let tr3 := { tr2 with stampUploads := [stamps_key] }
      if env.stampsUploadOk then
        csvStage object_id env p fz1 fits1 fs3 tr3 obstime
      else
        { exit := .exc .uploadError, fz_fn := some fz1, fits_fn := some fits1,
          local_csv := none, fs := fs3, trace := tr3, obstimeUsed := some obstime }
    else
      { exit := .exc .csvWriteError, fz_fn := some fz1, fits_fn := some fits1,
        local_csv := none, fs := fs2, trace := tr2, obstimeUsed := some obstime }
  else
    { exit := .exc .stampsError, fz_fn := some fz1, fits_fn := some fits1,
      local_csv := none, fs := fs2, trace := tr2, obstimeUsed := some obstime }

/-- Lines 126-138: the forced-fresh point-source lookup on the solved path. -/
def lookupStage (object_id : String) (env : Env) (p : ParsedKey) (fz1 fits1 : String)
    (fs2 : List String) (tr1 : Trace) (obstime : ℚ) : BodySt :=
  let tr2 := { tr1 with lookupCalls := [fits1] }
  if env.lookupOk then
    stampsStage object_id env p fz1 fits1 fs2 tr2 obstime
  else
    { exit := .exc .lookupError, fz_fn := some fz1, fits_fn := some fits1,
      local_csv := none, fs := fs2, trace := tr2, obstimeUsed := some obstime }

/-- The try-body of `solve_file` (lines 81-163): parse, download, WCS
inspection, unpack, solve, header adjustment, then the solved-path stages. -/
def runBody (object_id : String) (env : Env) : BodySt :=
  match parseObjectKey object_id with
  | none =>
      { exit := .exc .valueError, fz_fn := none, fits_fn := none, local_csv := none,
        fs := [], trace := Trace.empty, obstimeUsed := none }
  | some p =>
    let tr0 : Trace := { Trace.empty with downloads := [object_id] }
    if env.downloadOk then
      let fz1 := tmpFzName object_id
      let fs1 := addFile [] fz1
      let fits1 := unpackedName fz1
      let fs2 := if env.unpackCreatesFile then addFile fs1 fits1 else fs1
      if fits1 ∈ fs2 then
        let tr1 := { tr0 with solverCalls := [fits1] }
        if env.headerOk then
          let obstime : ℚ :=
            (env.parseTime p.image_time : ℚ) + (env.header.exptime : ℚ) / 2
          if env.solveRaises then
            { exit := .ret { status := "unsolved", filename := fits1 },
              fz_fn := some fz1, fits_fn := some fits1, local_csv := none,
              fs := fs2, trace := tr1, obstimeUsed := some obstime }
          else
            lookupStage object_id env p fz1 fits1 fs2 tr1 obstime
        else
          { exit := .exc .headerError, fz_fn := some fz1, fits_fn := some fits1,
            local_csv := none, fs := fs2, trace := tr1, obstimeUsed := none }
      else
        { exit := .exc .unpackMissing, fz_fn := some fz1, fits_fn := some fits1,
          local_csv := none, fs := fs2, trace := tr0, obstimeUsed := none }
    else
      { exit := .exc .downloadError, fz_fn := none, fits_fn := none, local_csv := none,
        fs := [], trace := tr0, obstimeUsed := none }

/-- The list literal of the cleanup loop (line 169): building it reads the
three locals left to right, so the first unassigned one raises
UnboundLocalError before any file is removed. -/
def cleanupList (fits_fn fz_fn local_csv : Option String) : Except PyExc (List String) :=
  match fits_fn, fz_fn, local_csv with
  | none, _, _ => .error (.unboundLocal "fits_fn")
  | some _, none, _ => .error (.unboundLocal "fz_fn")
  | some _, some _, none => .error (.unboundLocal "local_csv")
  | some a, some b, some c => .ok [a, b, c]

/-- Final observable outcome of one `solve_file` run. -/
structure RunOut where
  result : Except PyExc JobResult
  fs : List String
  trace : Trace
  obstimeUsed : Option ℚ
deriving DecidableEq, Repr

/-- plate-solver.py solve_file (lines 74-173): the pointing short-circuit,
the try/except/finally, the cleanup loop with FileNotFoundError suppressed,
and the final return whose dict reads fits_fn. A raise inside the finally
discards the pending return or caught-exception status. -/
def solve_file (object_id : String) (env : Env) : RunOut :=
  if hasSub object_id "pointing" then
    { result := .ok { status := "skipped", filename := object_id }, fs := [],
      trace := Trace.empty, obstimeUsed := none }
  else
    let b := runBody object_id env
    match cleanupList b.fits_fn b.fz_fn b.local_csv with
    | .error e =>
        { result := .error e, fs := b.fs, trace := b.trace, obstimeUsed := b.obstimeUsed }
    | .ok fns =>
      let fs1 := fns.foldl (fun acc fn => acc.erase fn) b.fs
      match b.exit, b.fits_fn with
      | .ret r, _ =>
          { result := .ok r, fs := fs1, trace := b.trace, obstimeUsed := b.obstimeUsed }
      | .fell, some f =>
          { result := .ok { status := "sources_extracted", filename := f }, fs := fs1,
            trace := b.trace, obstimeUsed := b.obstimeUsed }
      | .fell, none =>
          { result := .error (.unboundLocal "fits_fn"), fs := fs1, trace := b.trace,
            obstimeUsed := b.obstimeUsed }
      | .exc _, some f =>
          { result := .ok { status := "error", filename := f }, fs := fs1,
            trace := b.trace, obstimeUsed := b.obstimeUsed }
      | .exc _, none =>
          { result := .error (.unboundLocal "fits_fn"), fs := fs1, trace := b.trace,
            obstimeUsed := b.obstimeUsed }

/-- Worker-side environment: whether each of the two get_cursor calls
succeeds, and the pipeline environment. -/
structure WorkerEnv where
  catalogCursorOk : Bool
  metadataCursorOk : Bool
  solveEnv : Env

/-- Observable outcome of one msg_callback invocation. -/
structure CallbackOut where
  result : Except PyExc Unit
  acks : Nat
  catalogClosed : Bool
  metadataClosed : Bool
deriving DecidableEq, Repr

/-- plate-solver.py msg_callback (lines 56-71): try acquires the two
cursors and calls solve_file; the finally acks the message and then closes
catalog_db_cursor and metadata_db_cursor in that order, so a cursor whose
acquisition failed is an unassigned local and the close raises
UnboundLocalError after the ack. -/
def msg_callback (filenameAttr : String) (wenv : WorkerEnv) : CallbackOut :=
  if wenv.catalogCursorOk then
    if wenv.metadataCursorOk then
      let out := solve_file filenameAttr wenv.solveEnv
      { result := out.result.map (fun _ => ()), acks := 1,
        catalogClosed := true, metadataClosed := true }
    else
      { result := .error (.unboundLocal "metadata_db_cursor"), acks := 1,
        catalogClosed := true, metadataClosed := false }
  else
    { result := .error (.unboundLocal "catalog_db_cursor"), acks := 1,
      catalogClosed := false, metadataClosed := false }

/-- Concrete header for witness runs. -/
def header0 : Header := { exptime := 10, airmass := 1, dateObs := 0 }

/-- Environment in which every external call succeeds, the solver solves,
the returned solve_info is non-None, and exactly one WCS record was found. -/
def envAllOk : Env :=
  { downloadOk := true, wcsLen := 1, unpackCreatesFile := true,
    solveRaises := false, solveInfoIsSome := true,
    headerOk := true, header := header0, parseTime := fun _ => 0,
    lookupOk := true, getStampsOk := true, stampsToCsvOk := true,
    stampsUploadOk := true, sourcesToCsvOk := true, sourcesUploadOk := true,
    packOk := true, finalUploadOk := true }

/-- Same but the external solver raises or times out. -/
def envSolverFails : Env := { envAllOk with solveRaises := true }

def key1 : String := "PAN001/M42/c1/t0/img0.fits.fz"

def key2 : String := "PAN002/M43/c2/t1/img1.fits.fz"

/-- A malformed objectKey with only four path segments. -/
def key4seg : String := "PAN001/M42/c1/t0"

/-- Helper: a file just created is on the filesystem. -/
theorem mem_addFile_self (fs : List String) (a : String) : a ∈ addFile fs a := by
  by_cases h : a ∈ fs <;> simp [addFile, h]

/-- Helper: outside the pointing short-circuit, the observation time the run
records is the one the try-body computed, whatever the exit path. -/
theorem solve_file_obstimeUsed (object_id : String) (env : Env)
    (h : hasSub object_id "pointing" = false) :
    (solve_file object_id env).obstimeUsed = (runBody object_id env).obstimeUsed := by
  simp only [solve_file, h, Bool.false_eq_true, if_false]
  split
  · rfl
  · split <;> rfl

/-- Helper: outside the pointing short-circuit, the external-call trace of the
run is the trace of the try-body, whatever the exit path. -/
theorem solve_file_trace (object_id : String) (env : Env)
    (h : hasSub object_id "pointing" = false) :
    (solve_file object_id env).trace = (runBody object_id env).trace := by
  simp only [solve_file, h, Bool.false_eq_true, if_false]
  split
  · rfl
  · split <;> rfl

/-- Helper: the re-upload stage records the observation time it was handed,
on every one of its exit paths. -/
theorem uploadStage_obstimeUsed (object_id : String) (env : Env) (fz1 fits1 csv1 : String)
    (fs4 : List String) (tr4 : Trace) (obstime : ℚ) :
    (uploadStage object_id env fz1 fits1 csv1 fs4 tr4 obstime).obstimeUsed = some obstime := by
  simp only [uploadStage]
  repeat' first | rfl | split

/-- Helper: the CSV stage records the observation time it was handed. -/
theorem csvStage_obstimeUsed (object_id : String) (env : Env) (p : ParsedKey)
    (fz1 fits1 : String) (fs3 : List String) (tr3 : Trace) (obstime : ℚ) :
    (csvStage object_id env p fz1 fits1 fs3 tr3 obstime).obstimeUsed = some obstime := by
  simp only [csvStage]
  exact uploadStage_obstimeUsed ..

/-- Helper: the stamps stage records the observation time it was handed. -/
theorem stampsStage_obstimeUsed (object_id : String) (env : Env) (p : ParsedKey)
    (fz1 fits1 : String) (fs2 : List String) (tr2 : Trace) (obstime : ℚ) :
    (stampsStage object_id env p fz1 fits1 fs2 tr2 obstime).obstimeUsed = some obstime := by
  simp only [stampsStage]
  repeat' first | rfl | exact csvStage_obstimeUsed .. | split

/-- Helper: the lookup stage records the observation time it was handed. -/
theorem lookupStage_obstimeUsed (object_id : String) (env : Env) (p : ParsedKey)
    (fz1 fits1 : String) (fs2 : List String) (tr1 : Trace) (obstime : ℚ) :
    (lookupStage object_id env p fz1 fits1 fs2 tr1 obstime).obstimeUsed = some obstime := by
  simp only [lookupStage]
  repeat' first | rfl | exact stampsStage_obstimeUsed .. | split

/-- Helper: whenever the run reaches the header-adjustment step (parse,
download and unpack succeeded, the header read succeeded), the observation
time it computes is the parsed file-segment timestamp plus half the EXPTIME
read from the header, for every solver outcome and every later outcome. -/
theorem runBody_obstimeUsed (object_id : String) (env : Env) (p : ParsedKey)
    (hp : parseObjectKey object_id = some p)
    (hd : env.downloadOk = true) (hu : env.unpackCreatesFile = true)
    (hh : env.headerOk = true) :
    (runBody object_id env).obstimeUsed =
      some ((env.parseTime p.image_time : ℚ) + (env.header.exptime : ℚ) / 2) := by
  simp only [runBody, hp, hd, hu, hh, if_true, mem_addFile_self, ite_true]
  repeat' first | rfl | exact lookupStage_obstimeUsed .. | split

/-- Helper: when the try-body falls through normally with all three cleanup
locals bound, the run returns sources_extracted carrying fits_fn. -/
theorem solve_file_result_fell (object_id : String) (env : Env) (f z c : String)
    (h0 : hasSub object_id "pointing" = false)
    (hb : (runBody object_id env).exit = .fell)
    (hf : (runBody object_id env).fits_fn = some f)
    (hz : (runBody object_id env).fz_fn = some z)
    (hc : (runBody object_id env).local_csv = some c) :
    (solve_file object_id env).result =
      .ok { status := "sources_extracted", filename := f } := by
  simp only [solve_file, h0, Bool.false_eq_true, if_false, hb, hf, hz, hc, cleanupList]

/-- Helper: outcome shape of the try-body on the fully solved path: it falls
through, the three cleanup locals are bound, and the original objectKey is
re-uploaded exactly when the solver returned a non-None solution and exactly
one WCS record was present before solving. -/
theorem runBody_solved_proj (object_id : String) (env : Env) (p : ParsedKey)
    (hp : parseObjectKey object_id = some p)
    (hd : env.downloadOk = true) (hu : env.unpackCreatesFile = true)
    (hh : env.headerOk = true) (hs : env.solveRaises = false)
    (hl : env.lookupOk = true) (hg : env.getStampsOk = true)
    (hcs : env.stampsToCsvOk = true) (hsu : env.stampsUploadOk = true)
    (hk : env.packOk = true) (hfu : env.finalUploadOk = true) :
    (runBody object_id env).exit = .fell ∧
    (runBody object_id env).fits_fn = some (unpackedName (tmpFzName object_id)) ∧
    (runBody object_id env).fz_fn =
      some (if env.solveInfoIsSome && (env.wcsLen == 1) then
        unpackedName (tmpFzName object_id) ++ ".fz" else tmpFzName object_id) ∧
    (runBody object_id env).local_csv =
      some ("/tmp/" ++ underscored (artifactKey p "sources-")) ∧
    (runBody object_id env).trace.imageUploads =
      (if env.solveInfoIsSome && (env.wcsLen == 1) then [object_id] else []) := by
  simp only [runBody, lookupStage, stampsStage, csvStage, uploadStage,
    hp, hd, hu, hh, hs, hl, hg, hcs, hsu, hk, hfu,
    if_true, mem_addFile_self, ite_true, Bool.false_eq_true, if_false]
  cases hq : (env.solveInfoIsSome && (env.wcsLen == 1)) <;>
    cases hsc : env.sourcesToCsvOk <;>
      simp [hq, hsc, Trace.empty]

/-- Helper: outcome shape of the try-body when the solver raises or times
out after a clean download and unpack: the early unsolved return is pending,
fits_fn and fz_fn are bound, and local_csv was never assigned. -/
theorem runBody_unsolved_proj (object_id : String) (env : Env) (p : ParsedKey)
    (hp : parseObjectKey object_id = some p)
    (hd : env.downloadOk = true) (hu : env.unpackCreatesFile = true)
    (hh : env.headerOk = true) (hs : env.solveRaises = true) :
    (runBody object_id env).exit =
      .ret { status := "unsolved", filename := unpackedName (tmpFzName object_id) } ∧
    (runBody object_id env).fits_fn = some (unpackedName (tmpFzName object_id)) ∧
    (runBody object_id env).fz_fn = some (tmpFzName object_id) ∧
    (runBody object_id env).local_csv = none := by
  simp only [runBody, hp, hd, hu, hh, hs,
    if_true, mem_addFile_self, ite_true]
  refine ⟨?_, ?_, ?_, ?_⟩ <;> trivial

/-- Helper: when the solver raises after a clean download and unpack, the
cleanup block reads the never-assigned local_csv and the whole call raises
UnboundLocalError, discarding the pending unsolved return and removing no
file. -/
theorem solve_file_unsolved_raises (object_id : String) (env : Env) (p : ParsedKey)
    (h0 : hasSub object_id "pointing" = false)
    (hp : parseObjectKey object_id = some p)
    (hd : env.downloadOk = true) (hu : env.unpackCreatesFile = true)
    (hh : env.headerOk = true) (hs : env.solveRaises = true) :
    (solve_file object_id env).result = .error (.unboundLocal "local_csv") ∧
    (solve_file object_id env).fs = (runBody object_id env).fs := by
  obtain ⟨hb, hf, hz, hc⟩ := runBody_unsolved_proj object_id env p hp hd hu hh hs
  constructor <;>
    simp only [solve_file, h0, Bool.false_eq_true, if_false, hb, hf, hz, hc, cleanupList]

/-- The parse of key1. -/
def pKey1 : ParsedKey := ⟨"PAN001", "M42", "c1", "t0", "img0.fits.fz"⟩

/-- The parse of key2. -/
def pKey2 : ParsedKey := ⟨"PAN002", "M43", "c2", "t1", "img1.fits.fz"⟩

/-- Environment where only the source-CSV serialization fails. -/
def envCsvFails : Env := { envAllOk with sourcesToCsvOk := false }

/-- Header whose recorded observation start time disagrees with the
timestamp encoded in the file name. -/
def headerLate : Header := { exptime := 10, airmass := 1, dateObs := 100 }

def envHeaderLate : Env := { envAllOk with header := headerLate }

def wenvAllOk : WorkerEnv := ⟨true, true, envAllOk⟩

/-- Worker environment where acquiring the metadata cursor raises. -/
def wenvMetaFail : WorkerEnv := ⟨true, false, envAllOk⟩

/-- Claim C1: the spec says that on a solver failure or timeout solve_file
returns a JobResult with status unsolved and the scratch files are fully
removed. The code instead raises UnboundLocalError for local_csv from the
cleanup block on that path (local_csv is only assigned further down the
solved path), discarding the pending unsolved return and removing neither
the downloaded archive nor the decompressed image. -/
theorem C1_solver_failure_raises_and_leaks :
    (solve_file key1 envSolverFails).result = .error (.unboundLocal "local_csv") ∧
    (solve_file key1 envSolverFails).fs =
      ["/tmp/PAN001_M42_c1_t0_img0.fits.fz", "/tmp/PAN001_M42_c1_t0_img0.fits"] := by
  decide

/-- Claim C2: the spec says no exception escapes solve_file and that a
4-segment objectKey yields a returned status error. The split does raise
ValueError, which the except catches, and no store or solver call is made;
but the cleanup block then reads the never-assigned fits_fn and the
escaping UnboundLocalError replaces the status-error return. -/
theorem C2_four_segment_key_raises :
    solve_file key4seg envAllOk =
      { result := .error (.unboundLocal "fits_fn"), fs := [], trace := Trace.empty,
        obstimeUsed := none } := by
  decide

/-- Claim C3: the spec says every local scratch file created during the run
is removed on every exit path. On the fully successful path the cleanup
list names only fits_fn, fz_fn and local_csv, so the local stamps CSV
written at line 145 survives the run. -/
theorem C3_stamps_csv_leaked :
    (solve_file key1 envAllOk).result =
      .ok { status := "sources_extracted", filename := "/tmp/PAN001_M42_c1_t0_img0.fits" } ∧
    (solve_file key1 envAllOk).fs = ["/tmp/PAN001_M42_c1_t0_stamps-img0.csv"] := by
  decide

/-- Claim C4: any objectKey containing the substring pointing is
short-circuited to a skipped result carrying the objectKey itself, with no
download, upload, solver or catalog call and no local file created. -/
theorem C4_pointing_skipped (object_id : String) (env : Env)
    (h : hasSub object_id "pointing" = true) :
    solve_file object_id env =
      { result := .ok { status := "skipped", filename := object_id }, fs := [],
        trace := Trace.empty, obstimeUsed := none } := by
  simp [solve_file, h]

/-- Witness for C4 at a concrete pointing key. -/
theorem C4_pointing_skipped_witness :
    hasSub "PAN001/M42/c1/t0/pointing01.fits.fz" "pointing" = true ∧
    solve_file "PAN001/M42/c1/t0/pointing01.fits.fz" envAllOk =
      { result := .ok { status := "skipped", filename := "PAN001/M42/c1/t0/pointing01.fits.fz" },
        fs := [], trace := Trace.empty, obstimeUsed := none } :=
  ⟨by decide, C4_pointing_skipped "PAN001/M42/c1/t0/pointing01.fits.fz" envAllOk (by decide)⟩

/-- Claim C5: an objectKey splitting into exactly five segments parses, and
the derived identifiers are sequence_id = unit_cam_seqTime and image_id =
unit_cam_imageTime with imageTime taken from the file segment; both are
plain functions of the key, so the same key always yields the same ids. -/
theorem C5_parse_derives_ids (object_id u f c s fl : String)
    (h : splitOnChar '/' object_id = [u, f, c, s, fl]) :
    parseObjectKey object_id = some ⟨u, f, c, s, fl⟩ ∧
    (ParsedKey.mk u f c s fl).sequence_id = u ++ "_" ++ c ++ "_" ++ s ∧
    (ParsedKey.mk u f c s fl).image_id =
      u ++ "_" ++ c ++ "_" ++ (splitOnChar '.' fl).headD "" := by
  refine ⟨?_, rfl, rfl⟩
  simp [parseObjectKey, h]

/-- Witness for C5 at key1. -/
theorem C5_parse_derives_ids_witness :
    parseObjectKey key1 = some pKey1 ∧
    pKey1.sequence_id = "PAN001" ++ "_" ++ "c1" ++ "_" ++ "t0" ∧
    pKey1.image_id =
      "PAN001" ++ "_" ++ "c1" ++ "_" ++ (splitOnChar '.' "img0.fits.fz").headD "" :=
  C5_parse_derives_ids key1 "PAN001" "M42" "c1" "t0" "img0.fits.fz" (by decide)

/-- Claim C6: on a fully solved run the original objectKey is re-uploaded
exactly when the solver returned a non-None solution and exactly one WCS
record was found before solving; with more than one WCS record no image
re-upload occurs. -/
theorem C6_conditional_reupload (object_id : String) (env : Env) (p : ParsedKey)
    (h0 : hasSub object_id "pointing" = false)
    (hp : parseObjectKey object_id = some p)
    (hd : env.downloadOk = true) (hu : env.unpackCreatesFile = true)
    (hh : env.headerOk = true) (hs : env.solveRaises = false)
    (hl : env.lookupOk = true) (hg : env.getStampsOk = true)
    (hcs : env.stampsToCsvOk = true) (hsu : env.stampsUploadOk = true)
    (hk : env.packOk = true) (hfu : env.finalUploadOk = true) :
    ((solve_file object_id env).trace.imageUploads = [object_id] ↔
      (env.solveInfoIsSome = true ∧ env.wcsLen = 1)) ∧
    (1 < env.wcsLen → (solve_file object_id env).trace.imageUploads = []) := by
  have ht := solve_file_trace object_id env h0
  obtain ⟨-, -, -, -, himg⟩ :=
    runBody_solved_proj object_id env p hp hd hu hh hs hl hg hcs hsu hk hfu
  rw [ht, himg]
  have hiff : ((env.solveInfoIsSome && (env.wcsLen == 1)) = true) ↔
      (env.solveInfoIsSome = true ∧ env.wcsLen = 1) := by
    simp [Bool.and_eq_true]
  by_cases hcond : (env.solveInfoIsSome && (env.wcsLen == 1)) = true
  · have hc2 := hiff.mp hcond
    constructor
    · simp [hcond, hc2.1, hc2.2]
    · intro hgt
      rw [hc2.2] at hgt
      exact absurd hgt (lt_irrefl 1)
  · have hb : (env.solveInfoIsSome && (env.wcsLen == 1)) = false := by
      simpa using hcond
    have hc2 : ¬(env.solveInfoIsSome = true ∧ env.wcsLen = 1) :=
      fun hx => hcond (hiff.mpr hx)
    simp [hb, hc2]

/-- Witness for C6: with one prior WCS record and a non-None solution the
image is re-uploaded to its objectKey. -/
theorem C6_conditional_reupload_witness :
    (solve_file key1 envAllOk).trace.imageUploads = [key1] :=
  (C6_conditional_reupload key1 envAllOk pKey1 (by decide) (by decide)
    rfl rfl rfl rfl rfl rfl rfl rfl rfl rfl).1.mpr ⟨rfl, rfl⟩

/-- Claim C7: a failure while serializing or uploading the source CSV is
swallowed by the inner try and the job still returns sources_extracted,
provided the surrounding steps succeed. -/
theorem C7_csv_failure_nonfatal (object_id : String) (env : Env) (p : ParsedKey)
    (h0 : hasSub object_id "pointing" = false)
    (hp : parseObjectKey object_id = some p)
    (hd : env.downloadOk = true) (hu : env.unpackCreatesFile = true)
    (hh : env.headerOk = true) (hs : env.solveRaises = false)
    (hl : env.lookupOk = true) (hg : env.getStampsOk = true)
    (hcs : env.stampsToCsvOk = true) (hsu : env.stampsUploadOk = true)
    (hk : env.packOk = true) (hfu : env.finalUploadOk = true)
    (_hfail : env.sourcesToCsvOk = false ∨ env.sourcesUploadOk = false) :
    (solve_file object_id env).result =
      .ok { status := "sources_extracted", filename := unpackedName (tmpFzName object_id) } := by
  obtain ⟨hb, hf, hz, hc, -⟩ :=
    runBody_solved_proj object_id env p hp hd hu hh hs hl hg hcs hsu hk hfu
  exact solve_file_result_fell object_id env _ _ _ h0 hb hf hz hc

/-- Witness for C7: the CSV write fails, the stamps went through, and the
job still finishes with sources_extracted. -/
theorem C7_csv_failure_nonfatal_witness :
    (solve_file key1 envCsvFails).result =
      .ok { status := "sources_extracted", filename := unpackedName (tmpFzName key1) } :=
  C7_csv_failure_nonfatal key1 envCsvFails pKey1 (by decide) (by decide)
    rfl rfl rfl rfl rfl rfl rfl rfl rfl rfl (Or.inl rfl)

/-- Claim C8 counterexample: the claim says the observation start time is
read from the image header. In the code the start time is parsed from the
file segment of the objectKey; on a run whose header records start time 100
while the file-segment timestamp parses to 0, the observation time actually
used is 0 + 10/2, not the header's 100 + 10/2. -/
theorem C8_obstime_not_from_header :
    (solve_file key1 envHeaderLate).obstimeUsed =
      some ((0 : ℚ) + (10 : ℚ) / 2) ∧
    ((0 : ℚ) + (10 : ℚ) / 2) ≠
      ((envHeaderLate.header.dateObs : ℚ) + (envHeaderLate.header.exptime : ℚ) / 2) := by
  constructor
  · rw [solve_file_obstimeUsed key1 envHeaderLate (by decide),
      runBody_obstimeUsed key1 envHeaderLate pKey1 (by decide) rfl rfl rfl]
    norm_num [envHeaderLate, envAllOk, headerLate]
  · norm_num [envHeaderLate, headerLate]

/-- Claim C8 as amended: the exposure duration is read from the image
header, but the observation start time is parsed from the file segment of
the objectKey, and the observation time used downstream is that parsed
start plus half the exposure; the computation runs for both solved and
unsolved images. -/
theorem C8_obstime_from_filename (object_id : String) (env : Env) (p : ParsedKey)
    (h0 : hasSub object_id "pointing" = false)
    (hp : parseObjectKey object_id = some p)
    (hd : env.downloadOk = true) (hu : env.unpackCreatesFile = true)
    (hh : env.headerOk = true) :
    (solve_file object_id env).obstimeUsed =
      some ((env.parseTime p.image_time : ℚ) + (env.header.exptime : ℚ) / 2) := by
  rw [solve_file_obstimeUsed object_id env h0]
  exact runBody_obstimeUsed object_id env p hp hd hu hh

/-- Witness for C8 on both the solved and the unsolved side. -/
theorem C8_obstime_from_filename_witness :
    (solve_file key1 envAllOk).obstimeUsed =
      some ((envAllOk.parseTime pKey1.image_time : ℚ) + (envAllOk.header.exptime : ℚ) / 2) ∧
    (solve_file key1 envSolverFails).obstimeUsed =
      some ((envSolverFails.parseTime pKey1.image_time : ℚ) +
        (envSolverFails.header.exptime : ℚ) / 2) :=
  ⟨C8_obstime_from_filename key1 envAllOk pKey1 (by decide) (by decide) rfl rfl rfl,
   C8_obstime_from_filename key1 envSolverFails pKey1 (by decide) (by decide) rfl rfl rfl⟩

/-- Claim C9 counterexample: the claim says both per-job connections are
closed even when acquiring a connection fails. When the metadata cursor
acquisition raises, the finally acknowledges and closes the catalog cursor,
but then raises UnboundLocalError for metadata_db_cursor: both connections
are not both closed. -/
theorem C9_connection_failure_not_both_closed :
    (msg_callback key1 wenvMetaFail).acks = 1 ∧
    (msg_callback key1 wenvMetaFail).catalogClosed = true ∧
    (msg_callback key1 wenvMetaFail).metadataClosed = false ∧
    (msg_callback key1 wenvMetaFail).result =
      .error (.unboundLocal "metadata_db_cursor") := by
  refine ⟨rfl, rfl, rfl, rfl⟩

/-- Claim C9 as amended: the callback acknowledges exactly once on every
path, closes the catalog cursor whenever it was acquired, and closes both
cursors whenever both were acquired, whether the pipeline returns or
raises; when acquiring a cursor fails, only the cursors actually acquired
are closed and the callback itself raises from its finally. -/
theorem C9_ack_once_and_close_acquired (attr : String) (wenv : WorkerEnv) :
    (msg_callback attr wenv).acks = 1 ∧
    (wenv.catalogCursorOk = true → (msg_callback attr wenv).catalogClosed = true) ∧
    (wenv.catalogCursorOk = true → wenv.metadataCursorOk = true →
      (msg_callback attr wenv).catalogClosed = true ∧
      (msg_callback attr wenv).metadataClosed = true) := by
  cases hc : wenv.catalogCursorOk <;> cases hm : wenv.metadataCursorOk <;>
    simp [msg_callback, hc, hm]

/-- Witness for C9 with both cursors acquired. -/
theorem C9_ack_once_and_close_acquired_witness :
    (msg_callback key1 wenvAllOk).acks = 1 ∧
    (msg_callback key1 wenvAllOk).catalogClosed = true ∧
    (msg_callback key1 wenvAllOk).metadataClosed = true :=
  ⟨(C9_ack_once_and_close_acquired key1 wenvAllOk).1,
   (C9_ack_once_and_close_acquired key1 wenvAllOk).2.1 rfl,
   ((C9_ack_once_and_close_acquired key1 wenvAllOk).2.2 rfl rfl).2⟩

/-- Claim C10 counterexample: the claim says the unsolved path returns a
JobResult whose filename is the local decompressed path; on that path no
JobResult is returned at all, because the cleanup block raises
UnboundLocalError for local_csv. -/
theorem C10_unsolved_path_returns_nothing :
    (solve_file key2 envSolverFails).result = .error (.unboundLocal "local_csv") := by
  decide

/-- Claim C10 as amended: the filename field is not uniform across the
paths that do return: on the skipped path it is the original objectKey,
while on the full-success path it is the local decompressed scratch path
under /tmp (fits_fn); the unsolved path constructs its result with fits_fn
but never returns it, raising UnboundLocalError from cleanup instead. -/
theorem C10_filename_nonuniform (object_id : String) (env : Env) (p : ParsedKey)
    (h0 : hasSub object_id "pointing" = false)
    (hp : parseObjectKey object_id = some p)
    (hd : env.downloadOk = true) (hu : env.unpackCreatesFile = true)
    (hh : env.headerOk = true) :
    (∀ oid2 : String, ∀ env2 : Env, hasSub oid2 "pointing" = true →
      (solve_file oid2 env2).result = .ok { status := "skipped", filename := oid2 }) ∧
    (env.solveRaises = false → env.lookupOk = true → env.getStampsOk = true →
      env.stampsToCsvOk = true → env.stampsUploadOk = true →
      env.packOk = true → env.finalUploadOk = true →
      (solve_file object_id env).result =
        .ok { status := "sources_extracted",
              filename := unpackedName (tmpFzName object_id) }) ∧
    (env.solveRaises = true →
      (solve_file object_id env).result = .error (.unboundLocal "local_csv")) := by
  refine ⟨?_, ?_, ?_⟩
  · intro oid2 env2 h2
    simp [solve_file, h2]
  · intro hs hl hg hcs hsu hk hfu
    obtain ⟨hb, hf, hz, hc, -⟩ :=
      runBody_solved_proj object_id env p hp hd hu hh hs hl hg hcs hsu hk hfu
    exact solve_file_result_fell object_id env _ _ _ h0 hb hf hz hc
  · intro hs
    exact (solve_file_unsolved_raises object_id env p h0 hp hd hu hh hs).1

/-- Witness for C10: skipped keeps the objectKey, success reports the /tmp
scratch path, which is not the objectKey. -/
theorem C10_filename_nonuniform_witness :
    (solve_file "t0/pointing/x/y/z.fits" envAllOk).result =
      .ok { status := "skipped", filename := "t0/pointing/x/y/z.fits" } ∧
    (solve_file key2 envAllOk).result =
      .ok { status := "sources_extracted", filename := unpackedName (tmpFzName key2) } ∧
    unpackedName (tmpFzName key2) = "/tmp/PAN002_M43_c2_t1_img1.fits" ∧
    unpackedName (tmpFzName key2) ≠ key2 :=
  ⟨(C10_filename_nonuniform key2 envAllOk pKey2 (by decide) (by decide) rfl rfl rfl).1
      "t0/pointing/x/y/z.fits" envAllOk (by decide),
   (C10_filename_nonuniform key2 envAllOk pKey2 (by decide) (by decide) rfl rfl rfl).2.1
      rfl rfl rfl rfl rfl rfl rfl,
   by decide, by decide⟩

end PlateSolver
